import Mathlib

/-!
Verification of the OpenTelemetry Rust SDK batching pipeline
(`opentelemetry-sdk/src/logs/log_processor.rs` and
`opentelemetry-sdk/src/trace/span_processor.rs`).

The Rust code is shallowly embedded: pure computations (config builders,
environment-variable resolution) become Lean functions; the stateful
processors and the batch workers become explicit state-passing functions
that additionally produce a trace of observable actions (export calls,
exporter shutdown, reply sends, diagnostics).  Asynchronous timing (the
export-vs-timer race, the `FuturesUnordered` in-flight set) is modelled by
giving each future a completion time in abstract time units: a race is won
by the earlier completion (with `future::select` polling its first argument
first, so the export wins ties), and `FuturesUnordered` yields completions
in ascending completion-time order.
-/

/-- Result of an export call: `Result<(), LogError/TraceError>` in the source.
`LogError::ExportTimedOut` and `TraceError::ExportTimedOut` are both modelled
by `ExportError.exportTimedOut`; other exporter-produced failures are
collapsed into `exportFailed` (their payload is opaque to the processor). -/
inductive ExportError where
  | exportTimedOut (millis : Nat)
  | exportFailed
  deriving DecidableEq, Repr

/-- `ExportResult = Result<(), Error>`. -/
inductive ExportResult where
  | ok
  | error (e : ExportError)
  deriving DecidableEq, Repr

/-- `std::time::Duration`, kept at nanosecond precision. -/
structure Duration where
  nanos : Nat
  deriving DecidableEq, Repr

/-- `Duration::from_millis`. -/
def Duration.from_millis (ms : Nat) : Duration := ⟨ms * 1000000⟩

/-! ### Environment variables and Rust integer parsing -/

/-- The process environment: `std::env::var` returning `Ok` exactly on the
`some` values. -/
def Env : Type := String → Option String

/-- `usize::from_str` / `u64::from_str`: an optional leading `+`, then one or
more ASCII base-10 digits and nothing else; values above `bound` overflow and
fail to parse. -/
def rust_parse_unsigned (bound : Nat) (s : String) : Option Nat :=
  let cs := s.toList
  let cs := match cs with
    | '+' :: rest => rest
    | other => other
  if cs.isEmpty then none
  else if cs.all Char.isDigit then
    let v := cs.foldl (fun a c => a * 10 + (c.toNat - '0'.toNat)) 0
    if v ≤ bound then some v else none
  else none

/-- `usize::MAX` on the 64-bit targets the crate supports. -/
def USIZE_MAX : Nat := 2 ^ 64 - 1

/-- `u64::MAX`. -/
def U64_MAX : Nat := 2 ^ 64 - 1

/-- `usize::from_str`. -/
def usize_from_str (s : String) : Option Nat := rust_parse_unsigned USIZE_MAX s

/-- `u64::from_str`. -/
def u64_from_str (s : String) : Option Nat := rust_parse_unsigned U64_MAX s

/-! ### Log batch configuration (`logs/log_processor.rs`) -/

def OTEL_BLRP_SCHEDULE_DELAY : String := "OTEL_BLRP_SCHEDULE_DELAY"
def OTEL_BLRP_SCHEDULE_DELAY_DEFAULT : Nat := 1000
def OTEL_BLRP_EXPORT_TIMEOUT : String := "OTEL_BLRP_EXPORT_TIMEOUT"
def OTEL_BLRP_EXPORT_TIMEOUT_DEFAULT : Nat := 30000
def OTEL_BLRP_MAX_QUEUE_SIZE : String := "OTEL_BLRP_MAX_QUEUE_SIZE"
def OTEL_BLRP_MAX_QUEUE_SIZE_DEFAULT : Nat := 2048
def OTEL_BLRP_MAX_EXPORT_BATCH_SIZE : String := "OTEL_BLRP_MAX_EXPORT_BATCH_SIZE"
def OTEL_BLRP_MAX_EXPORT_BATCH_SIZE_DEFAULT : Nat := 512

/-- `logs::log_processor::BatchConfig`. -/
structure LogBatchConfig where
  max_queue_size : Nat
  scheduled_delay : Duration
  max_export_batch_size : Nat
  max_export_timeout : Duration
  deriving DecidableEq, Repr

/-- `logs::log_processor::BatchConfigBuilder`. -/
structure LogBatchConfigBuilder where
  max_queue_size : Nat
  scheduled_delay : Duration
  max_export_batch_size : Nat
  max_export_timeout : Duration
  deriving DecidableEq, Repr

def LogBatchConfigBuilder.with_max_queue_size (b : LogBatchConfigBuilder) (v : Nat) :
    LogBatchConfigBuilder :=
  { b with max_queue_size := v }

def LogBatchConfigBuilder.with_scheduled_delay (b : LogBatchConfigBuilder) (v : Duration) :
    LogBatchConfigBuilder :=
  { b with scheduled_delay := v }

def LogBatchConfigBuilder.with_max_export_timeout (b : LogBatchConfigBuilder) (v : Duration) :
    LogBatchConfigBuilder :=
  { b with max_export_timeout := v }

def LogBatchConfigBuilder.with_max_export_batch_size (b : LogBatchConfigBuilder) (v : Nat) :
    LogBatchConfigBuilder :=
  { b with max_export_batch_size := v }

/-- `BatchConfigBuilder::build` (log variant): clamp `max_export_batch_size`
down to `max_queue_size`, copy everything else. -/
def LogBatchConfigBuilder.build (b : LogBatchConfigBuilder) : LogBatchConfig :=
  { max_queue_size := b.max_queue_size
    scheduled_delay := b.scheduled_delay
    max_export_timeout := b.max_export_timeout
    max_export_batch_size := min b.max_export_batch_size b.max_queue_size }

/-- `BatchConfigBuilder::init_from_env_vars` (log variant): each variable is
parsed; an absent or unparseable value leaves the field untouched. -/
def LogBatchConfigBuilder.init_from_env_vars (b : LogBatchConfigBuilder) (env : Env) :
    LogBatchConfigBuilder :=
  let b : LogBatchConfigBuilder := match (env OTEL_BLRP_MAX_QUEUE_SIZE).bind usize_from_str with
    | some max_queue_size => { b with max_queue_size }
    | none => b
  let b : LogBatchConfigBuilder := match (env OTEL_BLRP_MAX_EXPORT_BATCH_SIZE).bind usize_from_str with
    | some max_export_batch_size => { b with max_export_batch_size }
    | none => b
  let b : LogBatchConfigBuilder := match (env OTEL_BLRP_SCHEDULE_DELAY).bind u64_from_str with
    | some scheduled_delay => { b with scheduled_delay := Duration.from_millis scheduled_delay }
    | none => b
  let b : LogBatchConfigBuilder := match (env OTEL_BLRP_EXPORT_TIMEOUT).bind u64_from_str with
    | some max_export_timeout => { b with max_export_timeout := Duration.from_millis max_export_timeout }
    | none => b
  b

/-- `BatchConfigBuilder::default` (log variant): spec defaults, then
environment overrides. -/
def LogBatchConfigBuilder.default (env : Env) : LogBatchConfigBuilder :=
  LogBatchConfigBuilder.init_from_env_vars
    { max_queue_size := OTEL_BLRP_MAX_QUEUE_SIZE_DEFAULT
      scheduled_delay := Duration.from_millis OTEL_BLRP_SCHEDULE_DELAY_DEFAULT
      max_export_batch_size := OTEL_BLRP_MAX_EXPORT_BATCH_SIZE_DEFAULT
      max_export_timeout := Duration.from_millis OTEL_BLRP_EXPORT_TIMEOUT_DEFAULT }
    env

/-! ### Span batch configuration (`trace/span_processor.rs`) -/

def OTEL_BSP_SCHEDULE_DELAY : String := "OTEL_BSP_SCHEDULE_DELAY"
def OTEL_BSP_SCHEDULE_DELAY_DEFAULT : Nat := 5000
def OTEL_BSP_MAX_QUEUE_SIZE : String := "OTEL_BSP_MAX_QUEUE_SIZE"
def OTEL_BSP_MAX_QUEUE_SIZE_DEFAULT : Nat := 2048
def OTEL_BSP_MAX_EXPORT_BATCH_SIZE : String := "OTEL_BSP_MAX_EXPORT_BATCH_SIZE"
def OTEL_BSP_MAX_EXPORT_BATCH_SIZE_DEFAULT : Nat := 512
def OTEL_BSP_EXPORT_TIMEOUT : String := "OTEL_BSP_EXPORT_TIMEOUT"
def OTEL_BSP_EXPORT_TIMEOUT_DEFAULT : Nat := 30000
def OTEL_BSP_MAX_CONCURRENT_EXPORTS : String := "OTEL_BSP_MAX_CONCURRENT_EXPORTS"
def OTEL_BSP_MAX_CONCURRENT_EXPORTS_DEFAULT : Nat := 1

/-- `trace::span_processor::BatchConfig`. -/
structure SpanBatchConfig where
  max_queue_size : Nat
  scheduled_delay : Duration
  max_export_batch_size : Nat
  max_export_timeout : Duration
  max_concurrent_exports : Nat
  deriving DecidableEq, Repr

/-- `trace::span_processor::BatchConfigBuilder`. -/
structure SpanBatchConfigBuilder where
  max_queue_size : Nat
  scheduled_delay : Duration
  max_export_batch_size : Nat
  max_export_timeout : Duration
  max_concurrent_exports : Nat
  deriving DecidableEq, Repr

def SpanBatchConfigBuilder.with_max_queue_size (b : SpanBatchConfigBuilder) (v : Nat) :
    SpanBatchConfigBuilder :=
  { b with max_queue_size := v }

def SpanBatchConfigBuilder.with_max_export_batch_size (b : SpanBatchConfigBuilder) (v : Nat) :
    SpanBatchConfigBuilder :=
  { b with max_export_batch_size := v }

def SpanBatchConfigBuilder.with_max_concurrent_exports (b : SpanBatchConfigBuilder) (v : Nat) :
    SpanBatchConfigBuilder :=
  { b with max_concurrent_exports := v }

def SpanBatchConfigBuilder.with_scheduled_delay (b : SpanBatchConfigBuilder) (v : Duration) :
    SpanBatchConfigBuilder :=
  { b with scheduled_delay := v }

def SpanBatchConfigBuilder.with_max_export_timeout (b : SpanBatchConfigBuilder) (v : Duration) :
    SpanBatchConfigBuilder :=
  { b with max_export_timeout := v }

/-- `BatchConfigBuilder::build` (span variant): clamp `max_export_batch_size`
down to `max_queue_size`, copy everything else. -/
def SpanBatchConfigBuilder.build (b : SpanBatchConfigBuilder) : SpanBatchConfig :=
  { max_queue_size := b.max_queue_size
    scheduled_delay := b.scheduled_delay
    max_export_timeout := b.max_export_timeout
    max_concurrent_exports := b.max_concurrent_exports
    max_export_batch_size := min b.max_export_batch_size b.max_queue_size }

/-- `BatchConfigBuilder::init_from_env_vars` (span variant).  Unlike the log
variant it also clamps `max_export_batch_size` to `max_queue_size` (before
reading `OTEL_BSP_EXPORT_TIMEOUT`), mirroring the source order exactly. -/
def SpanBatchConfigBuilder.init_from_env_vars (b : SpanBatchConfigBuilder) (env : Env) :
    SpanBatchConfigBuilder :=
  let b : SpanBatchConfigBuilder := match (env OTEL_BSP_MAX_CONCURRENT_EXPORTS).bind usize_from_str with
    | some max_concurrent_exports => { b with max_concurrent_exports }
    | none => b
  let b : SpanBatchConfigBuilder := match (env OTEL_BSP_MAX_QUEUE_SIZE).bind usize_from_str with
    | some max_queue_size => { b with max_queue_size }
    | none => b
  let b : SpanBatchConfigBuilder := match (env OTEL_BSP_SCHEDULE_DELAY).bind u64_from_str with
    | some scheduled_delay => { b with scheduled_delay := Duration.from_millis scheduled_delay }
    | none => b
  let b : SpanBatchConfigBuilder := match (env OTEL_BSP_MAX_EXPORT_BATCH_SIZE).bind usize_from_str with
    | some max_export_batch_size => { b with max_export_batch_size }
    | none => b
  let b : SpanBatchConfigBuilder := if b.max_export_batch_size > b.max_queue_size then
      { b with max_export_batch_size := b.max_queue_size }
    else b
  let b : SpanBatchConfigBuilder := match (env OTEL_BSP_EXPORT_TIMEOUT).bind u64_from_str with
    | some max_export_timeout => { b with max_export_timeout := Duration.from_millis max_export_timeout }
    | none => b
  b

/-- `BatchConfigBuilder::default` (span variant). -/
def SpanBatchConfigBuilder.default (env : Env) : SpanBatchConfigBuilder :=
  SpanBatchConfigBuilder.init_from_env_vars
    { max_queue_size := OTEL_BSP_MAX_QUEUE_SIZE_DEFAULT
      scheduled_delay := Duration.from_millis OTEL_BSP_SCHEDULE_DELAY_DEFAULT
      max_export_batch_size := OTEL_BSP_MAX_EXPORT_BATCH_SIZE_DEFAULT
      max_export_timeout := Duration.from_millis OTEL_BSP_EXPORT_TIMEOUT_DEFAULT
      max_concurrent_exports := OTEL_BSP_MAX_CONCURRENT_EXPORTS_DEFAULT }
    env

/-! ### Records, scopes and exporter state -/

/-- `opentelemetry_sdk::logs::LogRecord`; the processor treats it as opaque
data that it may clone, so a body and an attribute list suffice. -/
structure LogRecord where
  body : Option String
  attributes : List (String × String)
  deriving DecidableEq, Repr

/-- `opentelemetry::InstrumentationScope` (opaque to the processor). -/
structure InstrumentationScope where
  scopeName : String
  deriving DecidableEq, Repr

/-- `SpanData`: opaque except for `span_context.is_sampled()`. -/
structure SpanData where
  sampled : Bool
  spanName : String
  deriving DecidableEq, Repr

/-- State of a log exporter, modelled as an in-memory recorder: `export`
appends the batch and returns `result`, `shutdown` sets the flag.  Exporter
implementations are external to this repository (spec §1), so the recorder
stands for an arbitrary exporter with constant export outcome. -/
structure LogExporterState where
  batches : List (List (LogRecord × InstrumentationScope))
  is_shutdown : Bool
  result : ExportResult
  deriving DecidableEq, Repr

/-- `exporter.export(batch)`: record the batch, return the exporter's result. -/
def LogExporterState.export (e : LogExporterState) (batch : List (LogRecord × InstrumentationScope)) :
    LogExporterState × ExportResult :=
  ({ e with batches := e.batches ++ [batch] }, e.result)

/-- State of a span exporter (same recorder model). -/
structure SpanExporterState where
  batches : List (List SpanData)
  is_shutdown : Bool
  result : ExportResult
  deriving DecidableEq, Repr

/-- `exporter.export(batch)` for spans. -/
def SpanExporterState.export (e : SpanExporterState) (batch : List SpanData) :
    SpanExporterState × ExportResult :=
  ({ e with batches := e.batches ++ [batch] }, e.result)

/-! ### Simple processors

The embedding is single-threaded, so the mutex always locks successfully and
the `MutexPoisoned` branches are unreachable; diagnostics are returned as the
list of `otel_*!` event names emitted by the call. -/

/-- `SimpleLogProcessor`: exporter behind a mutex plus an `is_shutdown`
atomic flag. -/
structure SimpleLogProcessor where
  exporter : LogExporterState
  is_shutdown : Bool
  deriving DecidableEq, Repr

/-- `SimpleLogProcessor::emit`: no-op (with a warning diagnostic) after
shutdown, otherwise a synchronous export of the single record. -/
def SimpleLogProcessor.emit (p : SimpleLogProcessor) (record : LogRecord)
    (instrumentation : InstrumentationScope) : SimpleLogProcessor × List String :=
  if p.is_shutdown then
    (p, ["SimpleLogProcessor.Emit.ProcessorShutdown"])
  else
    let (e, result) := p.exporter.export [(record, instrumentation)]
    ({ p with exporter := e },
     match result with
     | ExportResult.ok => []
     | ExportResult.error _ => ["SimpleLogProcessor.Emit.ExportError"])

/-- `SimpleLogProcessor::force_flush`: nothing buffered, always `Ok`. -/
def SimpleLogProcessor.force_flush (_p : SimpleLogProcessor) : ExportResult :=
  ExportResult.ok

/-- `SimpleLogProcessor::shutdown`: set the flag, shut the exporter down. -/
def SimpleLogProcessor.shutdown (p : SimpleLogProcessor) : SimpleLogProcessor × ExportResult :=
  let p := { p with is_shutdown := true }
  ({ p with exporter := { p.exporter with is_shutdown := true } }, ExportResult.ok)

/-- `SimpleSpanProcessor`: exporter behind a mutex; note there is no
shutdown flag in the source. -/
structure SimpleSpanProcessor where
  exporter : SpanExporterState
  deriving DecidableEq, Repr

/-- `SimpleSpanProcessor::on_end`: drop unsampled spans, otherwise a
synchronous export of the single span (no shutdown check in the source). -/
def SimpleSpanProcessor.on_end (p : SimpleSpanProcessor) (span : SpanData) :
    SimpleSpanProcessor × List String :=
  if !span.sampled then
    (p, [])
  else
    let (e, result) := p.exporter.export [span]
    ({ exporter := e },
     match result with
     | ExportResult.ok => []
     | ExportResult.error _ => ["SimpleProcessor.OnEnd.Error"])

/-- `SimpleSpanProcessor::shutdown`: shut the exporter down, return `Ok`. -/
def SimpleSpanProcessor.shutdown (p : SimpleSpanProcessor) : SimpleSpanProcessor × ExportResult :=
  ({ exporter := { p.exporter with is_shutdown := true } }, ExportResult.ok)

/-! ### Batch worker state machines

Observable effects are collected into a trace of `WorkerAction`s in program
order.  The timing environment gives the exporter a fixed completion time
`exportDur` and outcome `exporterRes` per export call (abstract time units =
milliseconds, matching the `Duration::from_millis` timeout configuration). -/

/-- One observable step of a batch worker. -/
inductive WorkerAction where
  | exportCall (batchSize : Nat)
  | exporterShutdown
  | replySend (result : ExportResult)
  | setResourceCall
  | diagnostic (eventName : String)
  deriving DecidableEq, Repr

/-- Control messages (`BatchMessage`) for the log worker.  The oneshot reply
sender of `Flush`/`Shutdown` is modelled by whether a reply is requested;
sending on it becomes a `replySend` action. -/
inductive LogBatchMessage where
  | exportLog (record : LogRecord) (scope : InstrumentationScope)
  | flush (hasReply : Bool)
  | shutdownMsg
  | setResource
  deriving DecidableEq, Repr

/-- The outcome of `future::select(export, delay(time_out))`: the export wins
iff it completes within `time_out` (`select` polls the export first, so it
also wins ties), else the result is `ExportTimedOut(time_out)`. -/
def raceResult (time_out : Nat) (exportDur : Nat) (exporterRes : ExportResult) : ExportResult :=
  if exportDur ≤ time_out then exporterRes
  else ExportResult.error (ExportError.exportTimedOut time_out)

/-- `export_with_timeout` (log worker): empty batches short-circuit to `Ok`
without touching the exporter; otherwise the export future is raced against
`runtime.delay(time_out)`.  Returns the trace and the result. -/
def export_with_timeout (time_out : Nat) (exportDur : Nat) (exporterRes : ExportResult)
    (batch : List (LogRecord × InstrumentationScope)) : List WorkerAction × ExportResult :=
  if batch.isEmpty then ([], ExportResult.ok)
  else
    ([WorkerAction.exportCall batch.length], raceResult time_out exportDur exporterRes)

/-- Timing environment of the log worker. -/
structure LogWorkerEnv where
  max_export_batch_size : Nat
  max_export_timeout : Nat
  exportDur : Nat
  exporterRes : ExportResult
  deriving DecidableEq, Repr

/-- Mutable state of the log worker: the buffer of pending logs. -/
structure LogWorkerState where
  buffer : List (LogRecord × InstrumentationScope)
  deriving DecidableEq, Repr

/-- One iteration of the log worker's `while let` loop body: returns the new
state, the actions performed, and whether the loop continues (`false` exactly
on the `break` of the `Shutdown` arm). -/
def logProcessMessage (env : LogWorkerEnv) (st : LogWorkerState) (m : LogBatchMessage) :
    LogWorkerState × List WorkerAction × Bool :=
  match m with
  | LogBatchMessage.exportLog record scope =>
    let logs := st.buffer ++ [(record, scope)]
    if logs.length = env.max_export_batch_size then
      let (tr, result) :=
        export_with_timeout env.max_export_timeout env.exportDur env.exporterRes logs
      (⟨[]⟩,
       tr ++ (match result with
         | ExportResult.error _ => [WorkerAction.diagnostic "BatchLogProcessor.Export.Error"]
         | ExportResult.ok => []),
       true)
    else
      (⟨logs⟩, [], true)
  | LogBatchMessage.flush hasReply =>
    let (tr, result) :=
      export_with_timeout env.max_export_timeout env.exportDur env.exporterRes st.buffer
    (⟨[]⟩, tr ++ (if hasReply then [WorkerAction.replySend result] else []), true)
  | LogBatchMessage.shutdownMsg =>
    let (tr, result) :=
      export_with_timeout env.max_export_timeout env.exportDur env.exporterRes st.buffer
    (⟨[]⟩, tr ++ [WorkerAction.exporterShutdown, WorkerAction.replySend result], false)
  | LogBatchMessage.setResource =>
    (st, [WorkerAction.setResourceCall], true)

/-- The log worker loop over the (finite remainder of the) merged message
stream; an exhausted list is the stream terminating with `None`, upon which
the `while let` loop simply ends and the spawned task returns. -/
def logWorkerRun (env : LogWorkerEnv) (st : LogWorkerState) :
    List LogBatchMessage → List WorkerAction
  | [] => []
  | m :: rest =>
    let (st', tr, cont) := logProcessMessage env st m
    if cont then tr ++ logWorkerRun env st' rest else tr

/-- Control messages for the span worker. -/
inductive SpanBatchMessage where
  | exportSpan (span : SpanData)
  | flush (hasReply : Bool)
  | shutdownMsg
  | setResource
  deriving DecidableEq, Repr

/-- Timing environment of the span worker. -/
structure SpanWorkerEnv where
  max_export_batch_size : Nat
  max_export_timeout : Nat
  exportDur : Nat
  exporterRes : ExportResult
  deriving DecidableEq, Repr

/-- Mutable state of the span worker. -/
structure SpanWorkerState where
  spans : List SpanData
  deriving DecidableEq, Repr

/-- `BatchSpanProcessorInternal::export`: empty buffer short-circuits to a
ready `Ok` future without touching the exporter; otherwise the export is
raced against `delay(max_export_timeout)` exactly as in the log variant. -/
def spanExportTimed (time_out : Nat) (exportDur : Nat) (exporterRes : ExportResult)
    (spans : List SpanData) : List WorkerAction × ExportResult :=
  if spans.isEmpty then ([], ExportResult.ok)
  else
    ([WorkerAction.exportCall spans.length], raceResult time_out exportDur exporterRes)

/-- `BatchSpanProcessorInternal::flush`: run the timed export, then — inside
the same task — send the result on the reply channel if one was provided,
else log export errors.  Modelled at `max_concurrent_exports = 1` (the
default), where `export_tasks` is always empty and the task is awaited
inline; the `cap > 1` reply timing is modelled by `spanFlushReplyTime`. -/
def spanFlush (env : SpanWorkerEnv) (st : SpanWorkerState) (hasReply : Bool) :
    SpanWorkerState × List WorkerAction :=
  let (tr, result) :=
    spanExportTimed env.max_export_timeout env.exportDur env.exporterRes st.spans
  (⟨[]⟩,
   tr ++ (if hasReply then [WorkerAction.replySend result]
     else match result with
       | ExportResult.error _ => [WorkerAction.diagnostic "BatchSpanProcessor.Flush.ExportError"]
       | ExportResult.ok => []))

/-- `BatchSpanProcessorInternal::process_message`; returns `false` exactly on
the `Shutdown` arm. -/
def spanProcessMessage (env : SpanWorkerEnv) (st : SpanWorkerState) (m : SpanBatchMessage) :
    SpanWorkerState × List WorkerAction × Bool :=
  match m with
  | SpanBatchMessage.exportSpan span =>
    let spans := st.spans ++ [span]
    if spans.length = env.max_export_batch_size then
      let (tr, result) :=
        spanExportTimed env.max_export_timeout env.exportDur env.exporterRes spans
      (⟨[]⟩,
       tr ++ (match result with
         | ExportResult.error _ => [WorkerAction.diagnostic "BatchSpanProcessor.Export.Error"]
         | ExportResult.ok => []),
       true)
    else
      (⟨spans⟩, [], true)
  | SpanBatchMessage.flush hasReply =>
    let (st', tr) := spanFlush env st hasReply
    (st', tr, true)
  | SpanBatchMessage.shutdownMsg =>
    let (st', tr) := spanFlush env st true
    (st', tr ++ [WorkerAction.exporterShutdown], false)
  | SpanBatchMessage.setResource =>
    (st, [WorkerAction.setResourceCall], true)

/-- `BatchSpanProcessorInternal::run`: the select loop; on `None` from the
message stream it breaks with no further action. -/
def spanWorkerRun (env : SpanWorkerEnv) (st : SpanWorkerState) :
    List SpanBatchMessage → List WorkerAction
  | [] => []
  | m :: rest =>
    let (st', tr, cont) := spanProcessMessage env st m
    if cont then tr ++ spanWorkerRun env st' rest else tr

/-! ### Concurrent flush reply timing (`max_concurrent_exports` arbitrary)

Each in-flight export task is identified by its completion time; the pair's
Boolean marks the one task that sends the flush reply when it completes
(`flush` builds its task as "await own export, then send on the reply
channel").  `FuturesUnordered` yields completions in ascending time order,
which the drain loop `while export_tasks.next().await.is_some()` observes. -/

/-- Completion order of a set of concurrent tasks. -/
def completionOrder (tasks : List (Nat × Bool)) : List (Nat × Bool) :=
  List.insertionSort (fun a b => a.1 ≤ b.1) tasks

/-- The time at which the reply-sending task completes, read off the drain
trace. -/
def replyTimeOf (tasks : List (Nat × Bool)) : Option Nat :=
  ((completionOrder tasks).find? (fun e => e.2)).map (fun e => e.1)

/-- Tasks present while the flush's own task (completing at `own`) drains
alongside the unrelated in-flight exports. -/
def spanFlushTasks (inFlight : List Nat) (own : Nat) : List (Nat × Bool) :=
  inFlight.map (fun d => (d, false)) ++ [(own, true)]

/-- When the flush reply is sent: with `max_concurrent_exports = 1` the task
is awaited inline (the in-flight set is empty on that path); otherwise the
task is pushed into `export_tasks` and drained together with the unrelated
in-flight exports. -/
def spanFlushReplyTime (max_concurrent_exports : Nat) (inFlight : List Nat) (own : Nat) :
    Option Nat :=
  if max_concurrent_exports = 1 then replyTimeOf [(own, true)]
  else replyTimeOf (spanFlushTasks inFlight own)

/-! ### Batch processor facade (`BatchLogProcessor::emit`) -/

/-- The bounded MPSC channel: `try_send` fails (without blocking or
mutating) when the channel is closed or full. -/
structure LogChannel where
  capacity : Nat
  closed : Bool
  messages : List LogBatchMessage
  deriving DecidableEq, Repr

/-- `TrySend::try_send`. -/
def LogChannel.try_send (ch : LogChannel) (m : LogBatchMessage) : LogChannel × Bool :=
  if ch.closed || decide (ch.capacity ≤ ch.messages.length) then (ch, false)
  else ({ ch with messages := ch.messages ++ [m] }, true)

/-- `BatchLogProcessor::emit`: clone the record and scope into an
`ExportLog` message and `try_send` it; on failure emit an error diagnostic.
The caller's record is returned unchanged — the source never writes through
the `&mut LogRecord` reference. -/
def BatchLogProcessor.emit (sender : LogChannel) (record : LogRecord)
    (instrumentation : InstrumentationScope) : LogChannel × LogRecord × List String :=
  let (sender', sent) := sender.try_send (LogBatchMessage.exportLog record instrumentation)
  (sender', record, if sent then [] else ["BatchLogProcessor.Export.Error"])

/-- A concrete environment for the span builder: a parseable
`OTEL_BSP_MAX_QUEUE_SIZE` of 100 together with an unparseable
`OTEL_BSP_MAX_EXPORT_BATCH_SIZE`. -/
def spanEnvSmallQueue : Env := fun k =>
  if k = "OTEL_BSP_MAX_QUEUE_SIZE" then some "100"
  else if k = "OTEL_BSP_MAX_EXPORT_BATCH_SIZE" then some "not a number"
  else none

/-! ## Theorems -/

/-- Helper: the reply-sending task in a drained in-flight set completes at
its own export's completion time, whatever the unrelated tasks are. -/
theorem replyTimeOf_spanFlushTasks (inFlight : List Nat) (own : Nat) :
    replyTimeOf (spanFlushTasks inFlight own) = some own := by
  unfold replyTimeOf
  have hperm :=
    List.perm_insertionSort (fun a b : Nat × Bool => a.1 ≤ b.1) (spanFlushTasks inFlight own)
  have hmem : ((own, true) : Nat × Bool) ∈ completionOrder (spanFlushTasks inFlight own) := by
    rw [completionOrder]
    exact hperm.mem_iff.mpr (by simp [spanFlushTasks])
  have hsome :
      ∃ y, (completionOrder (spanFlushTasks inFlight own)).find? (fun e => e.2) = some y :=
    Option.isSome_iff_exists.mp (List.find?_isSome.mpr ⟨(own, true), hmem, rfl⟩)
  obtain ⟨y, hy⟩ := hsome
  have hpy : y.2 = true := by simpa using List.find?_some hy
  have hymem : y ∈ spanFlushTasks inFlight own := by
    have hmem' := List.mem_of_find?_eq_some hy
    rw [completionOrder] at hmem'
    exact hperm.mem_iff.mp hmem'
  have hyeq : y = (own, true) := by
    rcases List.mem_append.mp hymem with h | h
    · obtain ⟨d, _, hd⟩ := List.mem_map.mp h
      rw [← hd] at hpy
      simp at hpy
    · simpa using h
  rw [hy, hyeq]
  rfl

/-- Helper: field-by-field characterization of the log variant's
`init_from_env_vars`. -/
theorem log_init_from_env_vars_fields (env : Env) (b : LogBatchConfigBuilder) :
    ((b.init_from_env_vars env).max_queue_size
        = ((env OTEL_BLRP_MAX_QUEUE_SIZE).bind usize_from_str).getD b.max_queue_size)
    ∧ ((b.init_from_env_vars env).max_export_batch_size
        = ((env OTEL_BLRP_MAX_EXPORT_BATCH_SIZE).bind usize_from_str).getD b.max_export_batch_size)
    ∧ ((b.init_from_env_vars env).scheduled_delay
        = (((env OTEL_BLRP_SCHEDULE_DELAY).bind u64_from_str).map Duration.from_millis).getD
            b.scheduled_delay)
    ∧ ((b.init_from_env_vars env).max_export_timeout
        = (((env OTEL_BLRP_EXPORT_TIMEOUT).bind u64_from_str).map Duration.from_millis).getD
            b.max_export_timeout) := by
  unfold LogBatchConfigBuilder.init_from_env_vars
  rcases h1 : (env OTEL_BLRP_MAX_QUEUE_SIZE).bind usize_from_str with _ | v1 <;>
    rcases h2 : (env OTEL_BLRP_MAX_EXPORT_BATCH_SIZE).bind usize_from_str with _ | v2 <;>
    rcases h3 : (env OTEL_BLRP_SCHEDULE_DELAY).bind u64_from_str with _ | v3 <;>
    rcases h4 : (env OTEL_BLRP_EXPORT_TIMEOUT).bind u64_from_str with _ | v4 <;>
    simp [h1, h2, h3, h4]

/-- Helper: field-by-field characterization of the span variant's
`init_from_env_vars`, including the in-resolution clamp of
`max_export_batch_size`. -/
theorem span_init_from_env_vars_fields (env : Env) (c : SpanBatchConfigBuilder) :
    ((c.init_from_env_vars env).max_concurrent_exports
        = ((env OTEL_BSP_MAX_CONCURRENT_EXPORTS).bind usize_from_str).getD
            c.max_concurrent_exports)
    ∧ ((c.init_from_env_vars env).max_queue_size
        = ((env OTEL_BSP_MAX_QUEUE_SIZE).bind usize_from_str).getD c.max_queue_size)
    ∧ ((c.init_from_env_vars env).scheduled_delay
        = (((env OTEL_BSP_SCHEDULE_DELAY).bind u64_from_str).map Duration.from_millis).getD
            c.scheduled_delay)
    ∧ ((c.init_from_env_vars env).max_export_timeout
        = (((env OTEL_BSP_EXPORT_TIMEOUT).bind u64_from_str).map Duration.from_millis).getD
            c.max_export_timeout)
    ∧ ((c.init_from_env_vars env).max_export_batch_size
        = min (((env OTEL_BSP_MAX_EXPORT_BATCH_SIZE).bind usize_from_str).getD
                 c.max_export_batch_size)
              (((env OTEL_BSP_MAX_QUEUE_SIZE).bind usize_from_str).getD c.max_queue_size)) := by
  unfold SpanBatchConfigBuilder.init_from_env_vars
  rcases h1 : (env OTEL_BSP_MAX_CONCURRENT_EXPORTS).bind usize_from_str with _ | v1 <;>
    rcases h2 : (env OTEL_BSP_MAX_QUEUE_SIZE).bind usize_from_str with _ | v2 <;>
    rcases h3 : (env OTEL_BSP_SCHEDULE_DELAY).bind u64_from_str with _ | v3 <;>
    rcases h4 : (env OTEL_BSP_MAX_EXPORT_BATCH_SIZE).bind usize_from_str with _ | v4 <;>
    rcases h5 : (env OTEL_BSP_EXPORT_TIMEOUT).bind u64_from_str with _ | v5 <;>
    refine ⟨?_, ?_, ?_, ?_, ?_⟩ <;>
    simp [h1, h2, h3, h4, h5, Nat.min_def] <;>
    (try split) <;>
    (try split) <;>
    (first | rfl | omega)

/-- C1 counterexample: the claim fails for the span variant.  On a concrete
`SimpleSpanProcessor`, after `shutdown` has returned, a subsequent `on_end`
with a sampled span still passes the span to the exporter (the exporter's
received batches grow from `[]` to `[[span]]`), because the span variant has
no shutdown flag. -/
theorem C1_counterexample :
    ((SimpleSpanProcessor.shutdown ⟨⟨[], false, ExportResult.ok⟩⟩).1.on_end
        ⟨true, "span1"⟩).1.exporter.batches = [[⟨true, "span1"⟩]]
    ∧ (SimpleSpanProcessor.shutdown ⟨⟨[], false, ExportResult.ok⟩⟩).1.exporter.batches = [] := by
  decide

/-- C1 (amended): after `shutdown` returns on the simple **log** processor,
`emit` is a no-op — it emits the `ProcessorShutdown` warning diagnostic and
leaves the whole processor state (in particular the exporter's received
batches) unchanged.  The simple **span** processor has no shutdown flag: after
`shutdown` returns, `on_end` still passes every sampled span to the
exporter. -/
theorem C1_amended :
    (∀ (p : SimpleLogProcessor) (r : LogRecord) (s : InstrumentationScope),
      p.is_shutdown = true →
        (p.emit r s).1 = p
        ∧ (p.emit r s).2 = ["SimpleLogProcessor.Emit.ProcessorShutdown"])
    ∧ (∀ (q : SimpleSpanProcessor) (sp : SpanData),
      sp.sampled = true →
        ((q.shutdown.1).on_end sp).1.exporter.batches = q.exporter.batches ++ [[sp]]) := by
  constructor
  · intro p r s h
    constructor <;> simp [SimpleLogProcessor.emit, h]
  · intro q sp h
    simp [SimpleSpanProcessor.shutdown, SimpleSpanProcessor.on_end, h, SpanExporterState.export]

/-- C1 witness: the amended claim applied to a shut-down log processor and a
shut-down span processor. -/
theorem C1_witness :
    ((SimpleLogProcessor.emit ⟨⟨[], false, ExportResult.ok⟩, true⟩ ⟨none, []⟩ ⟨"scope1"⟩).1
        = ⟨⟨[], false, ExportResult.ok⟩, true⟩
      ∧ (SimpleLogProcessor.emit ⟨⟨[], false, ExportResult.ok⟩, true⟩ ⟨none, []⟩ ⟨"scope1"⟩).2
        = ["SimpleLogProcessor.Emit.ProcessorShutdown"])
    ∧ ((SimpleSpanProcessor.shutdown ⟨⟨[], false, ExportResult.ok⟩⟩).1.on_end
          ⟨true, "w1"⟩).1.exporter.batches = [] ++ [[⟨true, "w1"⟩]] :=
  ⟨C1_amended.1 ⟨⟨[], false, ExportResult.ok⟩, true⟩ ⟨none, []⟩ ⟨"scope1"⟩ rfl,
   C1_amended.2 ⟨⟨[], false, ExportResult.ok⟩⟩ ⟨true, "w1"⟩ rfl⟩

/-- C2 counterexample: the claim fails for the span worker.  On a concrete
buffer the span worker's `Shutdown` arm produces the action sequence
export → **reply send** → **exporter shutdown**, not the claimed
export → exporter shutdown → reply send (the reply is sent inside the flush
task, before `exporter.shutdown()` runs). -/
theorem C2_counterexample :
    (spanProcessMessage ⟨512, 30000, 5, ExportResult.ok⟩ ⟨[⟨true, "span2"⟩]⟩
        SpanBatchMessage.shutdownMsg).2.1
      = [WorkerAction.exportCall 1, WorkerAction.replySend ExportResult.ok,
         WorkerAction.exporterShutdown]
    ∧ (spanProcessMessage ⟨512, 30000, 5, ExportResult.ok⟩ ⟨[⟨true, "span2"⟩]⟩
        SpanBatchMessage.shutdownMsg).2.1
      ≠ [WorkerAction.exportCall 1, WorkerAction.exporterShutdown,
         WorkerAction.replySend ExportResult.ok] := by
  decide

/-- C2 (amended): on `Shutdown(reply)` with a non-empty buffer, the **log**
worker performs, in order: the final timed export, `exporter.shutdown()`,
the reply send, and exits the loop — exactly as claimed.  The **span** worker
(modelled at the default `max_concurrent_exports = 1`) instead sends the
reply before calling `exporter.shutdown()`: export, reply send, exporter
shutdown, exit. -/
theorem C2_amended :
    ∀ (envL : LogWorkerEnv) (stL : LogWorkerState) (envS : SpanWorkerEnv) (stS : SpanWorkerState),
      stL.buffer ≠ [] → stS.spans ≠ [] →
      (logProcessMessage envL stL LogBatchMessage.shutdownMsg
        = (⟨[]⟩,
           [WorkerAction.exportCall stL.buffer.length, WorkerAction.exporterShutdown,
            WorkerAction.replySend
              (raceResult envL.max_export_timeout envL.exportDur envL.exporterRes)],
           false))
      ∧ (spanProcessMessage envS stS SpanBatchMessage.shutdownMsg
        = (⟨[]⟩,
           [WorkerAction.exportCall stS.spans.length,
            WorkerAction.replySend
              (raceResult envS.max_export_timeout envS.exportDur envS.exporterRes),
            WorkerAction.exporterShutdown],
           false)) := by
  intro envL stL envS stS hL hS
  constructor
  · cases hb : stL.buffer with
    | nil => exact absurd hb hL
    | cons a t => simp [logProcessMessage, export_with_timeout, hb]
  · cases hb : stS.spans with
    | nil => exact absurd hb hS
    | cons a t => simp [spanProcessMessage, spanFlush, spanExportTimed, hb]

/-- C2 witness: the amended claim applied to concrete one-element buffers. -/
theorem C2_witness :
    (logProcessMessage ⟨512, 30000, 5, ExportResult.ok⟩ ⟨[(⟨none, []⟩, ⟨"sc2"⟩)]⟩
        LogBatchMessage.shutdownMsg
      = (⟨[]⟩,
         [WorkerAction.exportCall 1, WorkerAction.exporterShutdown,
          WorkerAction.replySend (raceResult 30000 5 ExportResult.ok)],
         false))
    ∧ (spanProcessMessage ⟨512, 30000, 5, ExportResult.ok⟩ ⟨[⟨true, "sw2"⟩]⟩
        SpanBatchMessage.shutdownMsg
      = (⟨[]⟩,
         [WorkerAction.exportCall 1,
          WorkerAction.replySend (raceResult 30000 5 ExportResult.ok),
          WorkerAction.exporterShutdown],
         false)) :=
  C2_amended ⟨512, 30000, 5, ExportResult.ok⟩ ⟨[(⟨none, []⟩, ⟨"sc2"⟩)]⟩
    ⟨512, 30000, 5, ExportResult.ok⟩ ⟨[⟨true, "sw2"⟩]⟩ (by decide) (by decide)

/-- C3: for every state of the in-flight set and every
`max_concurrent_exports`, a span `Flush(reply)` sends its result exactly when
the flush's own export completes (`own`), without waiting for any unrelated
in-flight export task. -/
theorem C3_theorem :
    ∀ (max_concurrent_exports : Nat) (inFlight : List Nat) (own : Nat),
      spanFlushReplyTime max_concurrent_exports inFlight own = some own := by
  intro cap inFlight own
  unfold spanFlushReplyTime
  split
  · exact replyTimeOf_spanFlushTasks [] own
  · exact replyTimeOf_spanFlushTasks inFlight own

/-- C4: for every builder state (defaults, environment overrides and `with_*`
overrides all produce some builder state), `build` clamps
`max_export_batch_size` to `min` with `max_queue_size`, so the built config
satisfies `max_export_batch_size ≤ max_queue_size` — for both the log and the
span config builders. -/
theorem C4_theorem :
    ∀ (b : LogBatchConfigBuilder) (c : SpanBatchConfigBuilder),
      (b.build.max_export_batch_size = min b.max_export_batch_size b.max_queue_size
        ∧ b.build.max_export_batch_size ≤ b.build.max_queue_size)
      ∧ (c.build.max_export_batch_size = min c.max_export_batch_size c.max_queue_size
        ∧ c.build.max_export_batch_size ≤ c.build.max_queue_size) :=
  fun _ _ => ⟨⟨rfl, Nat.min_le_right _ _⟩, ⟨rfl, Nat.min_le_right _ _⟩⟩

/-- C5 counterexample: with a buffered record and the message stream
terminating (sender side dropped without a prior Shutdown), both workers
produce **no** actions at all — in particular no final export and no
`exporter.shutdown()` call, contradicting the claim. -/
theorem C5_counterexample :
    logWorkerRun ⟨512, 30000, 5, ExportResult.ok⟩ ⟨[(⟨none, []⟩, ⟨"sc5"⟩)]⟩ [] = []
    ∧ spanWorkerRun ⟨512, 30000, 5, ExportResult.ok⟩ ⟨[⟨true, "sp5"⟩]⟩ [] = []
    ∧ WorkerAction.exporterShutdown ∉
        logWorkerRun ⟨512, 30000, 5, ExportResult.ok⟩ ⟨[(⟨none, []⟩, ⟨"sc5"⟩)]⟩ [] := by
  decide

/-- C5 (amended): when the message stream terminates without a prior Shutdown
message, both batch workers simply exit: the buffered records are not
exported and `exporter.shutdown()` is not called.  (In the deployed code this
path is unreachable in practice because the merged stream contains the
infinite interval ticker.) -/
theorem C5_amended :
    ∀ (envL : LogWorkerEnv) (stL : LogWorkerState) (envS : SpanWorkerEnv) (stS : SpanWorkerState),
      logWorkerRun envL stL [] = [] ∧ spanWorkerRun envS stS [] = [] :=
  fun _ _ _ _ => ⟨rfl, rfl⟩

/-- C6: for every non-empty batch, when the `delay(max_export_timeout)` timer
resolves strictly before the export future, the export's result is the
`ExportTimedOut` error carrying exactly the configured timeout — for both the
log worker's `export_with_timeout` and the span worker's export. -/
theorem C6_theorem :
    ∀ (tL dL tS dS : Nat) (resL resS : ExportResult)
      (batchL : List (LogRecord × InstrumentationScope)) (batchS : List SpanData),
      batchL ≠ [] → batchS ≠ [] → tL < dL → tS < dS →
      (export_with_timeout tL dL resL batchL).2
        = ExportResult.error (ExportError.exportTimedOut tL)
      ∧ (spanExportTimed tS dS resS batchS).2
        = ExportResult.error (ExportError.exportTimedOut tS) := by
  intro tL dL tS dS resL resS batchL batchS hL hS htL htS
  constructor
  · cases batchL with
    | nil => exact absurd rfl hL
    | cons a t => simp [export_with_timeout, raceResult, Nat.not_le.mpr htL]
  · cases batchS with
    | nil => exact absurd rfl hS
    | cons a t => simp [spanExportTimed, raceResult, Nat.not_le.mpr htS]

/-- C6 witness: a 5 ms (resp. 7 ms) timeout against a 60 ms export. -/
theorem C6_witness :
    (export_with_timeout 5 60 ExportResult.ok [(⟨none, []⟩, ⟨"sc6"⟩)]).2
      = ExportResult.error (ExportError.exportTimedOut 5)
    ∧ (spanExportTimed 7 60 ExportResult.ok [⟨true, "sp6"⟩]).2
      = ExportResult.error (ExportError.exportTimedOut 7) :=
  C6_theorem 5 60 7 60 ExportResult.ok ExportResult.ok [(⟨none, []⟩, ⟨"sc6"⟩)] [⟨true, "sp6"⟩]
    (by decide) (by decide) (by decide) (by decide)

/-- C7 counterexample: the claim fails for the span variable set.  With
`OTEL_BSP_MAX_QUEUE_SIZE=100` and an unparseable
`OTEL_BSP_MAX_EXPORT_BATCH_SIZE`, the resolved `max_export_batch_size` is
100, not its builder default 512 — the span `init_from_env_vars` clamps the
field to `max_queue_size` during resolution. -/
theorem C7_counterexample :
    (spanEnvSmallQueue OTEL_BSP_MAX_EXPORT_BATCH_SIZE).bind usize_from_str = none
    ∧ (SpanBatchConfigBuilder.default spanEnvSmallQueue).max_export_batch_size = 100
    ∧ OTEL_BSP_MAX_EXPORT_BATCH_SIZE_DEFAULT = 512
    ∧ (100 : Nat) ≠ 512 := by
  decide

/-- C7 (amended): for the log variable set, and for the span fields
`max_concurrent_exports`, `max_queue_size`, `scheduled_delay` and
`max_export_timeout`, `init_from_env_vars` overrides the field exactly when
the variable parses as a base-10 integer and leaves it at the builder's value
otherwise.  The span `max_export_batch_size` is additionally clamped during
resolution: it resolves to the minimum of its parsed-or-default value and the
resolved `max_queue_size`. -/
theorem C7_amended :
    ∀ (env : Env) (b : LogBatchConfigBuilder) (c : SpanBatchConfigBuilder),
      (((b.init_from_env_vars env).max_queue_size
          = ((env OTEL_BLRP_MAX_QUEUE_SIZE).bind usize_from_str).getD b.max_queue_size)
        ∧ ((b.init_from_env_vars env).max_export_batch_size
          = ((env OTEL_BLRP_MAX_EXPORT_BATCH_SIZE).bind usize_from_str).getD
              b.max_export_batch_size)
        ∧ ((b.init_from_env_vars env).scheduled_delay
          = (((env OTEL_BLRP_SCHEDULE_DELAY).bind u64_from_str).map Duration.from_millis).getD
              b.scheduled_delay)
        ∧ ((b.init_from_env_vars env).max_export_timeout
          = (((env OTEL_BLRP_EXPORT_TIMEOUT).bind u64_from_str).map Duration.from_millis).getD
              b.max_export_timeout))
      ∧ (((c.init_from_env_vars env).max_concurrent_exports
          = ((env OTEL_BSP_MAX_CONCURRENT_EXPORTS).bind usize_from_str).getD
              c.max_concurrent_exports)
        ∧ ((c.init_from_env_vars env).max_queue_size
          = ((env OTEL_BSP_MAX_QUEUE_SIZE).bind usize_from_str).getD c.max_queue_size)
        ∧ ((c.init_from_env_vars env).scheduled_delay
          = (((env OTEL_BSP_SCHEDULE_DELAY).bind u64_from_str).map Duration.from_millis).getD
              c.scheduled_delay)
        ∧ ((c.init_from_env_vars env).max_export_timeout
          = (((env OTEL_BSP_EXPORT_TIMEOUT).bind u64_from_str).map Duration.from_millis).getD
              c.max_export_timeout)
        ∧ ((c.init_from_env_vars env).max_export_batch_size
          = min (((env OTEL_BSP_MAX_EXPORT_BATCH_SIZE).bind usize_from_str).getD
                   c.max_export_batch_size)
                (((env OTEL_BSP_MAX_QUEUE_SIZE).bind usize_from_str).getD c.max_queue_size))) :=
  fun env b c => ⟨log_init_from_env_vars_fields env b, span_init_from_env_vars_fields env c⟩

/-- C8: a flush with an empty buffer — explicit (`Flush(Some reply)`),
tick-driven (`Flush(None)`), or at shutdown — returns `Ok` and performs no
`exportCall`, for both workers. -/
theorem C8_theorem :
    ∀ (envL : LogWorkerEnv) (stL : LogWorkerState) (envS : SpanWorkerEnv)
      (stS : SpanWorkerState) (hasReply : Bool),
      stL.buffer = [] → stS.spans = [] →
      (logProcessMessage envL stL (LogBatchMessage.flush hasReply)
        = (⟨[]⟩, if hasReply then [WorkerAction.replySend ExportResult.ok] else [], true))
      ∧ (spanProcessMessage envS stS (SpanBatchMessage.flush hasReply)
        = (⟨[]⟩, if hasReply then [WorkerAction.replySend ExportResult.ok] else [], true))
      ∧ (logProcessMessage envL stL LogBatchMessage.shutdownMsg
        = (⟨[]⟩, [WorkerAction.exporterShutdown, WorkerAction.replySend ExportResult.ok], false))
      ∧ (spanProcessMessage envS stS SpanBatchMessage.shutdownMsg
        = (⟨[]⟩, [WorkerAction.replySend ExportResult.ok, WorkerAction.exporterShutdown], false)) := by
  intro envL stL envS stS hasReply hL hS
  obtain ⟨bufL⟩ := stL
  obtain ⟨bufS⟩ := stS
  simp only at hL hS
  subst hL
  subst hS
  cases hasReply <;>
    simp [logProcessMessage, spanProcessMessage, spanFlush, export_with_timeout, spanExportTimed]

/-- C8 witness: empty-buffer flushes and shutdowns at a concrete
configuration. -/
theorem C8_witness :
    (logProcessMessage ⟨512, 30000, 5, ExportResult.ok⟩ ⟨[]⟩ (LogBatchMessage.flush true)
      = (⟨[]⟩, [WorkerAction.replySend ExportResult.ok], true))
    ∧ (spanProcessMessage ⟨512, 30000, 5, ExportResult.ok⟩ ⟨[]⟩ (SpanBatchMessage.flush true)
      = (⟨[]⟩, [WorkerAction.replySend ExportResult.ok], true))
    ∧ (logProcessMessage ⟨512, 30000, 5, ExportResult.ok⟩ ⟨[]⟩ LogBatchMessage.shutdownMsg
      = (⟨[]⟩, [WorkerAction.exporterShutdown, WorkerAction.replySend ExportResult.ok], false))
    ∧ (spanProcessMessage ⟨512, 30000, 5, ExportResult.ok⟩ ⟨[]⟩ SpanBatchMessage.shutdownMsg
      = (⟨[]⟩, [WorkerAction.replySend ExportResult.ok, WorkerAction.exporterShutdown], false)) :=
  C8_theorem ⟨512, 30000, 5, ExportResult.ok⟩ ⟨[]⟩ ⟨512, 30000, 5, ExportResult.ok⟩ ⟨[]⟩ true
    rfl rfl

/-- C9: `build` changes no field other than `max_export_batch_size`:
`max_queue_size`, `scheduled_delay`, `max_export_timeout` (and, for spans,
`max_concurrent_exports`) are copied verbatim from the builder. -/
theorem C9_theorem :
    ∀ (b : LogBatchConfigBuilder) (c : SpanBatchConfigBuilder),
      b.build.max_queue_size = b.max_queue_size
      ∧ b.build.scheduled_delay = b.scheduled_delay
      ∧ b.build.max_export_timeout = b.max_export_timeout
      ∧ c.build.max_queue_size = c.max_queue_size
      ∧ c.build.scheduled_delay = c.scheduled_delay
      ∧ c.build.max_export_timeout = c.max_export_timeout
      ∧ c.build.max_concurrent_exports = c.max_concurrent_exports :=
  fun _ _ => ⟨rfl, rfl, rfl, rfl, rfl, rfl, rfl⟩

/-- C10: `BatchLogProcessor::emit` never mutates the caller's record: it only
clones the record and scope into the channel message, so the record after
`emit` equals the record before, and the channel either gained exactly the
cloned message or (full/closed) is unchanged. -/
theorem C10_theorem :
    ∀ (sender : LogChannel) (record : LogRecord) (scope : InstrumentationScope),
      (BatchLogProcessor.emit sender record scope).2.1 = record
      ∧ ((BatchLogProcessor.emit sender record scope).1.messages = sender.messages
        ∨ (BatchLogProcessor.emit sender record scope).1.messages
          = sender.messages ++ [LogBatchMessage.exportLog record scope]) := by
  intro sender record scope
  by_cases h : (sender.closed || decide (sender.capacity ≤ sender.messages.length)) = true
  · simp [BatchLogProcessor.emit, LogChannel.try_send, h]
  · simp [BatchLogProcessor.emit, LogChannel.try_send, h]
